import Mathlib

/-!
Shallow embedding of the thermo-sys cycle/device core
(src/thermosys/models/devices.py, src/thermosys/models/cycles.py and the
process helpers they call).

Numbers are modelled as rationals.  The external property backend
(pyfluids `Fluid`) is modelled as a structure of functions returning
`Option FluidState`: `none` models a pyfluids "unresolvable state" error.
Python exceptions are modelled with `Except DevError`; in-place mutation
of device/cycle attributes is modelled by returning the updated record.
-/

namespace ThermoSys

/-- A pyfluids fluid state: the properties the core reads.  `quality` is
`some q` for a saturation-dome state with vapor quality `q` (pyfluids
represents quality as a percentage: dew point = 100, bubble point = 0). -/
structure FluidState where
  fluidName : String
  pressure : ℚ
  temperature : ℚ
  enthalpy : ℚ
  entropy : ℚ
  quality : Option ℚ
deriving Repr, DecidableEq

/-- The property-backend operations the devices call on pyfluids `Fluid`
objects.  `none` models a backend failure (unresolvable state). -/
structure Backend where
  /-- `Fluid(fluid_type).with_state(Input.pressure(p), Input.temperature(t))` -/
  withStatePT : String → ℚ → ℚ → Option FluidState
  /-- `state.compression_to_pressure(pressure, isentropic_efficiency)` -/
  compressionToPressure : FluidState → ℚ → ℚ → Option FluidState
  /-- `state.expansion_to_pressure(pressure, isentropic_efficiency)` -/
  expansionToPressure : FluidState → ℚ → ℚ → Option FluidState
  /-- `state.cooling_to_enthalpy(enthalpy, pressure_drop)` -/
  coolingToEnthalpy : FluidState → ℚ → ℚ → Option FluidState
  /-- `Fluid(fluid_type).dew_point_at_pressure(pressure)` -/
  dewPointAtPressure : String → ℚ → Option FluidState

/-- Python exceptions raised by the embedded code. -/
inductive DevError where
  /-- pyfluids could not resolve a state; payload names the failing call. -/
  | backendError (op : String)
  /-- attribute lookup failed (e.g. `Deaerator` has no `get_outlet_state`). -/
  | attributeError (msg : String)
  /-- a `raise ValueError(msg)` in the thermosys code. -/
  | valueError (msg : String)
deriving Repr, DecidableEq

/-- Decidable equality for the `Except` results the embedding produces
(payloads are only compared when the constructors agree). -/
instance : DecidableEq (Except DevError ℚ) := fun a b =>
  match a, b with
  | .ok x, .ok y =>
    if h : x = y then .isTrue (by rw [h])
    else .isFalse (fun hc => h (Except.ok.inj hc))
  | .ok _, .error _ => .isFalse (fun hc => Except.noConfusion hc)
  | .error _, .ok _ => .isFalse (fun hc => Except.noConfusion hc)
  | .error x, .error y =>
    if h : x = y then .isTrue (by rw [h])
    else .isFalse (fun hc => h (Except.error.inj hc))

/-- Lift a backend result into `Except`, as the Python call either returns
the state or raises. -/
def liftBackend (op : String) : Option FluidState → Except DevError FluidState
  | some s => .ok s
  | none => .error (.backendError op)

/-- The per-class configuration of the concrete device classes in
`thermosys/models/devices.py` (constructor arguments other than `name`). -/
inductive DeviceSpec where
  | gasCompressor (efficiency compression_ratio : ℚ)
  | heatSource (fluid_type : String) (outlet_temperature : ℚ)
  | turbine (efficiency : ℚ) (fluid_type : String) (outlet_pressure : ℚ)
  | condenser (fluid_type : String) (pressure : ℚ)
  | pump (efficiency : ℚ) (outlet_pressure : ℚ)
  | deaerator (temperature : ℚ)
deriving Repr, DecidableEq

/-- `device_type` property of each class. -/
def DeviceSpec.deviceType : DeviceSpec → String
  | .gasCompressor _ _ => "compressor"
  | .heatSource _ _ => "heat_source"
  | .turbine _ _ _ => "turbine"
  | .condenser _ _ => "condenser"
  | .pump _ _ => "pump"
  | .deaerator _ => "deaerator"

/-- A device instance: its configuration plus the mutable
`inlet_state` / `outlet_state` attributes (both `None` at construction). -/
structure Device where
  name : String
  spec : DeviceSpec
  inlet_state : Option FluidState
  outlet_state : Option FluidState
deriving Repr, DecidableEq

/-- Construct a device as `__init__` does: cached states start as `None`. -/
def Device.mk0 (name : String) (spec : DeviceSpec) : Device :=
  ⟨name, spec, none, none⟩

/-- The outlet-state computation of each concrete class, read off the
bodies of the `get_outlet_state` overrides in devices.py.  `eb` is the
optional `energy_balance` keyword argument (only `Turbine` reads it).
`Deaerator` defines no `get_outlet_state`, so invoking it raises an
`AttributeError` whose text mentions the class, never the instance name. -/
def DeviceSpec.computeOutlet (B : Backend) (spec : DeviceSpec)
    (inlet : FluidState) (eb : Option ℚ) : Except DevError FluidState :=
  match spec with
  | .gasCompressor efficiency compression_ratio => do
      -- fluid = Fluid(FluidsList.Air).with_state(pressure, temperature)
      let fluid ← liftBackend "with_state"
        (B.withStatePT "Air" inlet.pressure inlet.temperature)
      -- fluid.compression_to_pressure(inlet_pressure * ratio, eff * 100)
      liftBackend "compression_to_pressure"
        (B.compressionToPressure fluid (inlet.pressure * compression_ratio)
          (efficiency * 100))
  | .heatSource fluid_type outlet_temperature =>
      -- Fluid(fluid_type).with_state(inlet.pressure, outlet_temperature)
      liftBackend "with_state"
        (B.withStatePT fluid_type inlet.pressure outlet_temperature)
  | .turbine efficiency fluid_type outlet_pressure => do
      let fluid ← liftBackend "with_state"
        (B.withStatePT fluid_type inlet.pressure inlet.temperature)
      match eb with
      | some energy_balance =>
          -- outlet_enthalpy = inlet.enthalpy - energy_balance / efficiency
          -- pressure_drop = np.abs(inlet.pressure - self.outlet_pressure)
          liftBackend "cooling_to_enthalpy"
            (B.coolingToEnthalpy fluid
              (inlet.enthalpy - energy_balance / efficiency)
              |inlet.pressure - outlet_pressure|)
      | none =>
          liftBackend "expansion_to_pressure"
            (B.expansionToPressure fluid outlet_pressure (efficiency * 100))
  | .condenser fluid_type pressure =>
      -- saturated_fluid = Fluid(fluid_type).dew_point_at_pressure(pressure)
      liftBackend "dew_point_at_pressure" (B.dewPointAtPressure fluid_type pressure)
  | .pump efficiency outlet_pressure =>
      -- inlet_state.compression_to_pressure(outlet_pressure, eff * 100)
      liftBackend "compression_to_pressure"
        (B.compressionToPressure inlet outlet_pressure (efficiency * 100))
  | .deaerator _ =>
      .error (.attributeError "Deaerator object has no attribute get_outlet_state")

/-- `True` exactly for the one class (`Deaerator`) that does not define a
`get_outlet_state` method. -/
def DeviceSpec.isDeaerator : DeviceSpec → Bool
  | .deaerator _ => true
  | _ => false

/-- `device.get_outlet_state(inlet_state, energy_balance=eb)`.
Returns the device after the call together with the outcome.  For the
classes that define the method, `super().get_outlet_state` first records
`inlet_state`; on success the returned state is also recorded as
`outlet_state`.  For `Deaerator` the attribute lookup itself fails, so the
device is unchanged by the call. -/
def Device.get_outlet_state (B : Backend) (d : Device) (inlet : FluidState)
    (eb : Option ℚ) : Device × Except DevError FluidState :=
  if d.spec.isDeaerator then (d, DeviceSpec.computeOutlet B d.spec inlet eb)
  else
    let d1 : Device := { d with inlet_state := some inlet }
    match DeviceSpec.computeOutlet B d.spec inlet eb with
    | .ok out => ({ d1 with outlet_state := some out }, .ok out)
    | .error e => (d1, .error e)

/-- `SingleInletOutletDevice.energy_balance`:
`np.abs(outlet.enthalpy - inlet.enthalpy)`, raising if either cached
state is `None`. -/
def Device.energy_balance (d : Device) : Except DevError ℚ :=
  match d.inlet_state, d.outlet_state with
  | some i, some o => .ok |o.enthalpy - i.enthalpy|
  | some _, none => .error (.valueError "The inlet and outlet states must be defined.")
  | none, _ => .error (.valueError "The inlet and outlet states must be defined.")

/-- A `ThermodynamicCycle`: initial state, mass flux, and the mutable
`devices` / `states` lists (both start empty). -/
structure Cycle where
  initial_state : FluidState
  mass_flux : ℚ
  devices : List Device
  states : List FluidState
deriving Repr, DecidableEq

namespace ThermodynamicCycle

/-- `ThermodynamicCycle.__init__`. -/
def init (initial_state : FluidState) (mass_flux : ℚ) : Cycle :=
  ⟨initial_state, mass_flux, [], []⟩

/-- `add_device`: appends to the device list; nothing else changes. -/
def add_device (c : Cycle) (d : Device) : Cycle :=
  { c with devices := c.devices ++ [d] }

/-- The loop body of `solve`: walk the devices, setting
`device.inlet_state` and appending `device.get_outlet_state(inlet)` to the
trajectory.  Returns the devices after the loop, the appended outlet
states, and the first raised exception if any; devices after the failing
one are untouched, and outlets appended before the failure remain. -/
def solveAux (B : Backend) : List Device → FluidState →
    List Device × List FluidState × Option DevError
  | [], _ => ([], [], none)
  | d :: rest, inlet =>
    -- device.inlet_state = inlet_state
    let d1 : Device := { d with inlet_state := some inlet }
    match d1.get_outlet_state B inlet none with
    | (d2, .ok out) =>
        match solveAux B rest out with
        | (ds, ss, e) => (d2 :: ds, out :: ss, e)
    | (d2, .error e) => (d2 :: rest, [], some e)

/-- `solve`: resets `states` to `[initial_state]` and runs the loop.  The
second component is the exception that escaped, if any (`none` on a
successful solve). -/
def solve (B : Backend) (c : Cycle) : Cycle × Option DevError :=
  match solveAux B c.devices c.initial_state with
  | (ds, ss, e) =>
    ({ c with devices := ds, states := c.initial_state :: ss }, e)

end ThermodynamicCycle

namespace BraytonCycle

/-- `np.sum(device.energy_balance for device in devices if
device.device_type == ty)`: numpy delegates a generator to the builtin
`sum`, so this is a left fold from `0` that raises at the first device
whose cached states are missing. -/
def sumEnergyBalance (ds : List Device) (ty : String) : Except DevError ℚ :=
  (ds.filter (fun d => d.spec.deviceType == ty)).foldlM
    (fun acc d => (Device.energy_balance d).map (fun eb => acc + eb)) 0

/-- `BraytonCycle.turbine_work`. -/
def turbine_work (c : Cycle) : Except DevError ℚ :=
  sumEnergyBalance c.devices "turbine"

/-- `BraytonCycle.compressor_work`. -/
def compressor_work (c : Cycle) : Except DevError ℚ :=
  sumEnergyBalance c.devices "compressor"

/-- `BraytonCycle.heat_in`: note the filter string is the literal
`"combustion_chamber"` from cycles.py. -/
def heat_in (c : Cycle) : Except DevError ℚ :=
  sumEnergyBalance c.devices "combustion_chamber"

/-- `BraytonCycle.get_efficiency`: the abstract guard raises unless at
least two states are present, then `(turbine_work - compressor_work) /
heat_in`.  The final division is numpy float division, which does not
raise on a zero divisor when a device contributed a float term; division
is modelled by total division on `ℚ`. -/
def get_efficiency (c : Cycle) : Except DevError ℚ :=
  if c.states.length < 2 then
    .error (.valueError "The cycle must be solved before getting its efficiency.")
  else do
    let tw ← turbine_work c
    let cw ← compressor_work c
    let hi ← heat_in c
    return (tw - cw) / hi

end BraytonCycle

/-! ## Concrete fixtures

A small fully computable backend used to exercise the embedded code on
concrete inputs.  Its `dewPointAtPressure` returns the saturated-vapor
point at the requested pressure with `quality = 100 %`, which is what
the pyfluids `dew_point_at_pressure` call produces (the bubble point, quality 0,
is a different call). -/

/-- A toy but fully computable property backend: every operation returns
a state built from literals and passed-through inputs only. -/
def testBackend : Backend where
  withStatePT f p t := some ⟨f, p, t, t, t, none⟩
  compressionToPressure s _ _ := some ⟨s.fluidName, 2500000, 31, 30200, 30, none⟩
  expansionToPressure s _ _ := some ⟨s.fluidName, 100000, 500, 29000, 20, none⟩
  coolingToEnthalpy s _ _ := some ⟨s.fluidName, 200000, 600, 28000, 10, none⟩
  dewPointAtPressure f p := some ⟨f, p, 45, 2500000, 8, some 100⟩

/-- Air at 1 bar / 30 °C, as `testBackend.withStatePT` would build it. -/
def airInlet : FluidState := ⟨"Air", 100000, 30, 30000, 30, none⟩

/-- `GasCompressor("C1g", efficiency=0.8, compression_ratio=25)`. -/
def compressorDev : Device := Device.mk0 "C1g" (.gasCompressor (4/5) 25)

/-- `HeatSourceDevice("CC1g", FluidsList.Air, outlet_temperature=1000)`. -/
def heatSourceDev : Device := Device.mk0 "CC1g" (.heatSource "Air" 1000)

/-- `Condenser("COND", FluidsList.Water, pressure=10000)`. -/
def condenserDev : Device := Device.mk0 "COND" (.condenser "Water" 10000)

/-- `Deaerator("D1", temperature=120)`. -/
def deaeratorDev : Device := Device.mk0 "D1" (.deaerator 120)

/-- `Deaerator("DEA-OTHER", temperature=95)`: a deaerator with a different
name, placed at a different chain position in the fixtures below. -/
def deaeratorDev2 : Device := Device.mk0 "DEA-OTHER" (.deaerator 95)

/-- A Brayton-style two-device cycle: compressor then heat source. -/
def cyc1 : Cycle :=
  { initial_state := airInlet, mass_flux := 450,
    devices := [compressorDev, heatSourceDev], states := [] }

/-- `cyc1` after a successful `solve`. -/
def cyc1solved : Cycle := (ThermodynamicCycle.solve testBackend cyc1).1

/-! ## Helper lemmas about `get_outlet_state` and `solveAux` -/

/-- A spec reported as a deaerator by `isDeaerator` is one. -/
theorem DeviceSpec.isDeaerator_true {s : DeviceSpec}
    (h : s.isDeaerator = true) : ∃ t, s = .deaerator t := by
  cases s with
  | deaerator t => exact ⟨t, rfl⟩
  | gasCompressor a b => simp [DeviceSpec.isDeaerator] at h
  | heatSource a b => simp [DeviceSpec.isDeaerator] at h
  | turbine a b c => simp [DeviceSpec.isDeaerator] at h
  | condenser a b => simp [DeviceSpec.isDeaerator] at h
  | pump a b => simp [DeviceSpec.isDeaerator] at h

/-- `computeOutlet` on a deaerator spec always raises the
`AttributeError`. -/
theorem computeOutlet_deaerator (B : Backend) (inlet : FluidState)
    (eb : Option ℚ) (t : ℚ) :
    DeviceSpec.computeOutlet B (.deaerator t) inlet eb =
      .error (.attributeError "Deaerator object has no attribute get_outlet_state") := rfl

/-- `get_outlet_state` on a deaerator device leaves the device unchanged
and raises the `AttributeError` (the message mentions the class only,
never the instance name or its chain position). -/
theorem get_outlet_state_deaerator (B : Backend) (d : Device)
    (inlet : FluidState) (eb : Option ℚ) (t : ℚ) (h : d.spec = .deaerator t) :
    Device.get_outlet_state B d inlet eb =
      (d, .error (.attributeError "Deaerator object has no attribute get_outlet_state")) := by
  unfold Device.get_outlet_state
  rw [h]
  simp [DeviceSpec.isDeaerator, computeOutlet_deaerator]

/-- Anatomy of a successful `get_outlet_state` call: the returned device
is the input with both cached states overwritten, and the outlet came
from `computeOutlet`. -/
theorem get_outlet_state_ok {B : Backend} {d d2 : Device}
    {inlet out : FluidState} {eb : Option ℚ}
    (h : Device.get_outlet_state B d inlet eb = (d2, .ok out)) :
    d2 = { d with inlet_state := some inlet, outlet_state := some out } ∧
    DeviceSpec.computeOutlet B d.spec inlet eb = .ok out := by
  unfold Device.get_outlet_state at h
  cases hdea : d.spec.isDeaerator with
  | true =>
    obtain ⟨t, ht⟩ := DeviceSpec.isDeaerator_true hdea
    rw [hdea] at h
    rw [ht] at h
    simp [computeOutlet_deaerator] at h
  | false =>
    rw [hdea] at h
    cases hc : DeviceSpec.computeOutlet B d.spec inlet eb with
    | ok out2 =>
      rw [hc] at h
      simp only [Bool.false_eq_true, if_false, Prod.mk.injEq, Except.ok.injEq] at h
      obtain ⟨h1, h2⟩ := h
      subst h2
      exact ⟨h1.symm, rfl⟩
    | error e =>
      rw [hc] at h
      simp at h

/-- Re-invoking `get_outlet_state` on the device it returned gives the
same device and outlet: `computeOutlet` reads only the configuration,
and the cached states are overwritten with the same values. -/
theorem get_outlet_state_again {B : Backend} {d d2 : Device}
    {inlet out : FluidState} {eb : Option ℚ}
    (h : Device.get_outlet_state B d inlet eb = (d2, .ok out)) :
    Device.get_outlet_state B d2 inlet eb = (d2, .ok out) := by
  obtain ⟨hd2, hc⟩ := get_outlet_state_ok h
  subst hd2
  unfold Device.get_outlet_state
  cases hdea : d.spec.isDeaerator with
  | true =>
    obtain ⟨t, ht⟩ := DeviceSpec.isDeaerator_true hdea
    rw [ht] at hc
    rw [computeOutlet_deaerator] at hc
    cases hc
  | false =>
    simp [hdea, hc]

/-- Anatomy of a successful solve loop: as many updated devices and
appended outlet states as input devices, and slot `i` of the outputs
records device `i` exercised on the previous trajectory entry. -/
theorem solveAux_ok_spec (B : Backend) :
    ∀ (ds : List Device) (s : FluidState) (ds1 : List Device)
      (ss : List FluidState),
      ThermodynamicCycle.solveAux B ds s = (ds1, ss, none) →
      ds1.length = ds.length ∧ ss.length = ds.length ∧
      ∀ i, i < ds.length →
        ∃ d1, ds1.get? i = some d1 ∧ ss.get? i = d1.outlet_state ∧
          d1.inlet_state = (s :: ss).get? i := by
  intro ds
  induction ds with
  | nil =>
    intro s ds1 ss h
    simp only [ThermodynamicCycle.solveAux, Prod.mk.injEq] at h
    obtain ⟨h1, h2, _⟩ := h
    subst h1
    subst h2
    simp
  | cons d rest ih =>
    intro s ds1 ss h
    simp only [ThermodynamicCycle.solveAux] at h
    split at h
    next d2 out hgo =>
      cases haux : ThermodynamicCycle.solveAux B rest out with
      | mk dsr pr =>
        cases pr with
        | mk ssr er =>
          rw [haux] at h
          simp only [Prod.mk.injEq] at h
          obtain ⟨hds1, hss, her⟩ := h
          subst hds1
          subst hss
          subst her
          obtain ⟨hl1, hl2, hpt⟩ := ih out dsr ssr haux
          refine ⟨by simpa using hl1, by simpa using hl2, ?_⟩
          intro i hi
          cases i with
          | zero =>
            obtain ⟨hd2, _⟩ := get_outlet_state_ok hgo
            subst hd2
            exact ⟨_, rfl, rfl, rfl⟩
          | succ n =>
            have hn : n < rest.length := by
              simpa using Nat.lt_of_succ_lt_succ hi
            obtain ⟨d1, h1, h2, h3⟩ := hpt n hn
            exact ⟨d1, by simpa using h1, by simpa using h2, by simpa using h3⟩
    next d2 e hgo =>
      simp at h

/-- Anatomy of a failing solve loop: the failure happened at the device
indexed by the number of appended states, its raised error escapes
unchanged, and every later device is untouched. -/
theorem solveAux_error_spec (B : Backend) :
    ∀ (ds : List Device) (s : FluidState) (ds1 : List Device)
      (ss : List FluidState) (e : DevError),
      ThermodynamicCycle.solveAux B ds s = (ds1, ss, some e) →
      ∃ d, ds.get? ss.length = some d ∧
        (Device.get_outlet_state B { d with inlet_state := some (ss.getLastD s) }
            (ss.getLastD s) none).2 = .error e ∧
        ∀ j, ss.length < j → ds1.get? j = ds.get? j := by
  intro ds
  induction ds with
  | nil =>
    intro s ds1 ss e h
    simp [ThermodynamicCycle.solveAux] at h
  | cons d rest ih =>
    intro s ds1 ss e h
    simp only [ThermodynamicCycle.solveAux] at h
    split at h
    next d2 out hgo =>
      cases haux : ThermodynamicCycle.solveAux B rest out with
      | mk dsr pr =>
        cases pr with
        | mk ssr er =>
          rw [haux] at h
          simp only [Prod.mk.injEq] at h
          obtain ⟨hds1, hss, her⟩ := h
          subst hds1
          rw [show ss = out :: ssr from hss.symm]
          obtain ⟨d1, hget, herr, hrest⟩ :=
            ih out dsr ssr e (by rw [haux, her])
          refine ⟨d1, by simpa using hget, ?_, ?_⟩
          · rw [List.getLastD_cons]
            exact herr
          · intro j hj
            cases j with
            | zero => exact absurd hj (by simp)
            | succ n =>
              simp only [List.get?_cons_succ]
              exact hrest n (by simpa using Nat.lt_of_succ_lt_succ hj)
    next d2 e2 hgo =>
      simp only [Prod.mk.injEq] at h
      obtain ⟨hds1, hss, he⟩ := h
      subst hds1
      have he2 : e2 = e := by injection he
      subst he2
      rw [show ss = [] from hss.symm]
      refine ⟨d, rfl, ?_, ?_⟩
      · simp only [List.getLastD_nil, List.length_nil]
        rw [hgo]
      · intro j hj
        cases j with
        | zero => exact absurd hj (by simp)
        | succ n => simp

/-- Re-running the solve loop on the devices a successful run returned
recomputes exactly the same devices and trajectory. -/
theorem solveAux_idem (B : Backend) :
    ∀ (ds : List Device) (s : FluidState) (ds1 : List Device)
      (ss : List FluidState),
      ThermodynamicCycle.solveAux B ds s = (ds1, ss, none) →
      ThermodynamicCycle.solveAux B ds1 s = (ds1, ss, none) := by
  intro ds
  induction ds with
  | nil =>
    intro s ds1 ss h
    simp only [ThermodynamicCycle.solveAux, Prod.mk.injEq] at h
    obtain ⟨h1, h2, _⟩ := h
    subst h1
    subst h2
    simp [ThermodynamicCycle.solveAux]
  | cons d rest ih =>
    intro s ds1 ss h
    simp only [ThermodynamicCycle.solveAux] at h
    split at h
    next d2 out hgo =>
      cases haux : ThermodynamicCycle.solveAux B rest out with
      | mk dsr pr =>
        cases pr with
        | mk ssr er =>
          rw [haux] at h
          simp only [Prod.mk.injEq] at h
          obtain ⟨hds1, hss, her⟩ := h
          subst hds1
          subst hss
          subst her
          have hd2fix : ({ d2 with inlet_state := some s } : Device) = d2 := by
            rw [(get_outlet_state_ok hgo).1]
          simp only [ThermodynamicCycle.solveAux, hd2fix,
            get_outlet_state_again hgo, ih out dsr ssr haux]
    next d2 e hgo =>
      simp at h

/-- If any device in the list is a deaerator, the solve loop raises. -/
theorem solveAux_deaerator (B : Backend) :
    ∀ (ds : List Device) (s : FluidState),
      (∃ d ∈ ds, ∃ t, d.spec = DeviceSpec.deaerator t) →
      ∃ e, (ThermodynamicCycle.solveAux B ds s).2.2 = some e := by
  intro ds
  induction ds with
  | nil =>
    intro s h
    simp at h
  | cons d rest ih =>
    intro s h
    cases hgo : Device.get_outlet_state B { d with inlet_state := some s } s none with
    | mk d2 res =>
      cases res with
      | error e =>
        exact ⟨e, by simp [ThermodynamicCycle.solveAux, hgo]⟩
      | ok out =>
        have hnd : ∀ t, d.spec ≠ DeviceSpec.deaerator t := by
          intro t ht
          have hde := get_outlet_state_deaerator B { d with inlet_state := some s }
            s none t ht
          rw [hde] at hgo
          simp at hgo
        obtain ⟨dx, hmem, t, ht⟩ := h
        have hmem2 : dx ∈ rest := by
          rcases List.mem_cons.mp hmem with hersame | hm
          · exact absurd ht (hersame ▸ hnd t)
          · exact hm
        obtain ⟨e, he⟩ := ih out ⟨dx, hmem2, t, ht⟩
        cases haux : ThermodynamicCycle.solveAux B rest out with
        | mk dsr pr =>
          cases pr with
          | mk ssr er =>
            rw [haux] at he
            exact ⟨e, by simp only [ThermodynamicCycle.solveAux, hgo, haux]; simpa using he⟩

/-- Unfolding `solve` through a known run of its loop. -/
theorem solve_eq (B : Backend) (c : Cycle) (ds : List Device)
    (ss : List FluidState) (e : Option DevError)
    (h : ThermodynamicCycle.solveAux B c.devices c.initial_state = (ds, ss, e)) :
    ThermodynamicCycle.solve B c =
      ({ c with devices := ds, states := c.initial_state :: ss }, e) := by
  unfold ThermodynamicCycle.solve
  rw [h]

/-! ## Claims -/

/-- C2 (confirmed): for every cycle on which `solve()` completes
successfully, the state trajectory has exactly N+1 entries for N devices,
entry 0 is `initial_state`, and for every `i < N` entry `i+1` equals the
`outlet_state` recorded on device `i`, whose recorded `inlet_state` is
the previous entry. -/
theorem C2_solve_trajectory (B : Backend) (c c1 : Cycle)
    (h : ThermodynamicCycle.solve B c = (c1, none)) :
    c1.states.length = c.devices.length + 1 ∧
    c1.states.get? 0 = some c.initial_state ∧
    c1.devices.length = c.devices.length ∧
    ∀ i, i < c.devices.length →
      ∃ d1, c1.devices.get? i = some d1 ∧
        c1.states.get? (i + 1) = d1.outlet_state ∧
        d1.inlet_state = c1.states.get? i := by
  cases haux : ThermodynamicCycle.solveAux B c.devices c.initial_state with
  | mk ds pr =>
    cases pr with
    | mk ss e =>
      rw [solve_eq B c ds ss e haux] at h
      simp only [Prod.mk.injEq] at h
      obtain ⟨hc1, he⟩ := h
      subst he
      subst hc1
      obtain ⟨hl1, hl2, hpt⟩ := solveAux_ok_spec B c.devices c.initial_state ds ss haux
      refine ⟨by simpa using hl2, rfl, by simpa using hl1, ?_⟩
      intro i hi
      obtain ⟨d1, h1, h2, h3⟩ := hpt i hi
      exact ⟨d1, h1, by simpa using h2, h3⟩

/-- Witness for C2 on a concrete two-device cycle. -/
theorem C2_witness :
    cyc1solved.states.length = cyc1.devices.length + 1 ∧
    cyc1solved.states.get? 0 = some cyc1.initial_state := by
  obtain ⟨h1, h2, _⟩ := C2_solve_trajectory testBackend cyc1 cyc1solved rfl
  exact ⟨h1, h2⟩

/-- C5 (confirmed): a `Turbine` invoked in energy-balance mode with
balance `X` and efficiency `E` on inlet `s` asks the backend for an
outlet enthalpy of exactly `s.enthalpy - X / E` with a pressure drop of
exactly `|s.pressure - outlet_pressure|`.  The backend `B` is arbitrary,
so the equality pins down the arguments the code passes. -/
theorem C5_turbine_energy_mode (B : Backend) (name : String)
    (efficiency : ℚ) (fluid_type : String) (outlet_pressure : ℚ)
    (inl outl : Option FluidState) (s : FluidState) (X : ℚ)
    (fluid : FluidState)
    (hB : B.withStatePT fluid_type s.pressure s.temperature = some fluid) :
    (Device.get_outlet_state B
        ⟨name, .turbine efficiency fluid_type outlet_pressure, inl, outl⟩
        s (some X)).2 =
      liftBackend "cooling_to_enthalpy"
        (B.coolingToEnthalpy fluid (s.enthalpy - X / efficiency)
          |s.pressure - outlet_pressure|) := by
  have hco : DeviceSpec.computeOutlet B
      (.turbine efficiency fluid_type outlet_pressure) s (some X) =
      liftBackend "cooling_to_enthalpy"
        (B.coolingToEnthalpy fluid (s.enthalpy - X / efficiency)
          |s.pressure - outlet_pressure|) := by
    show (liftBackend "with_state"
        (B.withStatePT fluid_type s.pressure s.temperature) >>= fun fl =>
      liftBackend "cooling_to_enthalpy"
        (B.coolingToEnthalpy fl (s.enthalpy - X / efficiency)
          |s.pressure - outlet_pressure|)) = _
    rw [hB]
    exact rfl
  unfold Device.get_outlet_state
  simp only [DeviceSpec.isDeaerator, Bool.false_eq_true, if_false]
  rw [hco]
  cases hres : B.coolingToEnthalpy fluid (s.enthalpy - X / efficiency)
      |s.pressure - outlet_pressure| with
  | none => simp [liftBackend]
  | some out => simp [liftBackend]

/-- Witness for C5 at concrete turbine parameters. -/
theorem C5_witness :
    (Device.get_outlet_state testBackend
        (Device.mk0 "TCg" (.turbine (4/5) "Air" 100000)) airInlet (some 8000)).2 =
      liftBackend "cooling_to_enthalpy"
        (testBackend.coolingToEnthalpy ⟨"Air", 100000, 30, 30, 30, none⟩
          (airInlet.enthalpy - 8000 / (4/5)) |airInlet.pressure - 100000|) :=
  C5_turbine_energy_mode testBackend "TCg" (4/5) "Air" 100000 none none
    airInlet 8000 ⟨"Air", 100000, 30, 30, 30, none⟩ rfl

/-- C7 (confirmed): `energy_balance` is `|Δh|` (hence non-negative) when
both cached states are present, and raises the "must be defined" error
when either is absent. -/
theorem C7_energy_balance_spec (d : Device) :
    (∀ i o, d.inlet_state = some i → d.outlet_state = some o →
      d.energy_balance = .ok |o.enthalpy - i.enthalpy| ∧
        (0 : ℚ) ≤ |o.enthalpy - i.enthalpy|) ∧
    ((d.inlet_state = none ∨ d.outlet_state = none) →
      d.energy_balance =
        .error (.valueError "The inlet and outlet states must be defined.")) := by
  constructor
  · intro i o hi ho
    exact ⟨by simp [Device.energy_balance, hi, ho], abs_nonneg _⟩
  · intro h
    rcases h with h | h
    · simp [Device.energy_balance, h]
    · cases hin : d.inlet_state with
      | none => simp [Device.energy_balance, hin]
      | some i => simp [Device.energy_balance, hin, h]

/-- Witness for C7: a device with both states cached and a fresh device
with none. -/
theorem C7_witness :
    ((⟨"P1", .pump 1 200000, some ⟨"Water", 1, 1, 10, 0, none⟩,
        some ⟨"Water", 2, 2, 4, 0, none⟩⟩ : Device).energy_balance = .ok 6 ∧
      (0 : ℚ) ≤ 6) ∧
    (Device.mk0 "P2" (.pump 1 200000)).energy_balance =
      .error (.valueError "The inlet and outlet states must be defined.") := by
  constructor
  · have h := (C7_energy_balance_spec
      ⟨"P1", .pump 1 200000, some ⟨"Water", 1, 1, 10, 0, none⟩,
        some ⟨"Water", 2, 2, 4, 0, none⟩⟩).1
      ⟨"Water", 1, 1, 10, 0, none⟩ ⟨"Water", 2, 2, 4, 0, none⟩ rfl rfl
    have habs : |(4 : ℚ) - 10| = 6 := by norm_num
    exact ⟨by rw [h.1, habs], by norm_num⟩
  · exact (C7_energy_balance_spec (Device.mk0 "P2" (.pump 1 200000))).2
      (Or.inl rfl)

/-- C8 (confirmed): with fewer than two states present — a cycle that was
never solved, or one solved with an empty device list — `get_efficiency`
raises the "must be solved" error instead of returning a number. -/
theorem C8_not_ready (B : Backend) (c : Cycle) :
    (c.states.length < 2 →
      BraytonCycle.get_efficiency c =
        .error (.valueError "The cycle must be solved before getting its efficiency.")) ∧
    (c.devices = [] →
      BraytonCycle.get_efficiency (ThermodynamicCycle.solve B c).1 =
        .error (.valueError "The cycle must be solved before getting its efficiency.")) := by
  constructor
  · intro h
    unfold BraytonCycle.get_efficiency
    rw [if_pos h]
  · intro h
    have haux : ThermodynamicCycle.solveAux B c.devices c.initial_state =
        ([], [], none) := by
      rw [h]
      rfl
    rw [solve_eq B c [] [] none haux]
    unfold BraytonCycle.get_efficiency
    rw [if_pos (by simp)]

/-- Witness for C8 on a freshly constructed cycle. -/
theorem C8_witness :
    BraytonCycle.get_efficiency (ThermodynamicCycle.init airInlet 450) =
      .error (.valueError "The cycle must be solved before getting its efficiency.") ∧
    BraytonCycle.get_efficiency
        (ThermodynamicCycle.solve testBackend (ThermodynamicCycle.init airInlet 450)).1 =
      .error (.valueError "The cycle must be solved before getting its efficiency.") := by
  obtain ⟨h1, h2⟩ := C8_not_ready testBackend (ThermodynamicCycle.init airInlet 450)
  exact ⟨h1 (by decide), h2 rfl⟩

/-- C9 (confirmed): re-invoking `solve()` on the unchanged cycle returned
by a successful `solve()` recomputes exactly the same trajectory, device
records and hence aggregates; nothing accumulates. -/
theorem C9_solve_idempotent (B : Backend) (c c1 : Cycle)
    (h : ThermodynamicCycle.solve B c = (c1, none)) :
    ThermodynamicCycle.solve B c1 = (c1, none) := by
  cases haux : ThermodynamicCycle.solveAux B c.devices c.initial_state with
  | mk ds pr =>
    cases pr with
    | mk ss e =>
      rw [solve_eq B c ds ss e haux] at h
      simp only [Prod.mk.injEq] at h
      obtain ⟨hc1, he⟩ := h
      subst he
      subst hc1
      have hidem := solveAux_idem B c.devices c.initial_state ds ss haux
      exact solve_eq B _ ds ss none hidem

/-- Witness for C9: solving the already-solved concrete cycle changes
nothing. -/
theorem C9_witness :
    ThermodynamicCycle.solve testBackend cyc1solved = (cyc1solved, none) :=
  C9_solve_idempotent testBackend cyc1 cyc1solved rfl

/-- C10 (confirmed): a cycle whose device list contains a `Deaerator`
can never solve successfully: `solve` always escapes with an error,
because `solve` unconditionally calls `get_outlet_state`, which
`Deaerator` does not define. -/
theorem C10_deaerator_always_fails (B : Backend) (c : Cycle)
    (h : ∃ d ∈ c.devices, ∃ t, d.spec = DeviceSpec.deaerator t) :
    (ThermodynamicCycle.solve B c).2 ≠ none := by
  obtain ⟨e, he⟩ := solveAux_deaerator B c.devices c.initial_state h
  cases haux : ThermodynamicCycle.solveAux B c.devices c.initial_state with
  | mk ds pr =>
    cases pr with
    | mk ss e2 =>
      rw [solve_eq B c ds ss e2 haux]
      rw [haux] at he
      simp only at he
      simp [he]

/-- Witness for C10: a one-deaerator cycle never solves. -/
theorem C10_witness :
    (ThermodynamicCycle.solve testBackend
      { initial_state := airInlet, mass_flux := 1,
        devices := [deaeratorDev], states := [] }).2 ≠ none :=
  C10_deaerator_always_fails testBackend
    { initial_state := airInlet, mass_flux := 1,
      devices := [deaeratorDev], states := [] }
    ⟨deaeratorDev, by simp, 120, rfl⟩

/-- C1 (code bug): `BraytonCycle.heat_in` filters on the literal device
type `"combustion_chamber"`, which no device class in devices.py carries;
`HeatSourceDevice.device_type` is `"heat_source"`, so on the solved
two-device chain `cyc1` the heat source contributes 29200 J/kg of heat
yet `heat_in` returns 0.  The driver shipped in the repository
(example.py) builds its combustion chambers as `HeatSourceDevice` and
then reads `get_efficiency`, so the filter string contradicts the
callers of the code and the `heat_in` docstring. -/
theorem C1_heat_in_ignores_heat_source :
    (ThermodynamicCycle.solve testBackend cyc1).2 = none ∧
    BraytonCycle.sumEnergyBalance cyc1solved.devices "heat_source" = .ok 29200 ∧
    BraytonCycle.heat_in cyc1solved = .ok 0 ∧
    (29200 : ℚ) ≠ 0 := by
  refine ⟨rfl, ?_, rfl, by norm_num⟩
  have h : BraytonCycle.sumEnergyBalance cyc1solved.devices "heat_source" =
      .ok (0 + |(1000 : ℚ) - 30200|) := rfl
  rw [h]
  have habs : |(1000 : ℚ) - 30200| = 29200 := by
    rw [abs_of_nonpos (by norm_num)]
    norm_num
  rw [habs]
  norm_num

/-- C3 (amended): when a device raises during `solve`, the remaining
chain is aborted — every device after the failing one is untouched — and
the raised error is the one raised by the failing device, propagated unchanged; the
cycle keeps the partial trajectory (`k + 1` states when device `k`
failed) instead of being put in an explicit failed state. -/
theorem C3_amended_failure_anatomy (B : Backend) (c c1 : Cycle) (e : DevError)
    (h : ThermodynamicCycle.solve B c = (c1, some e)) :
    ∃ k d, c.devices.get? k = some d ∧
      c1.states.length = k + 1 ∧
      (Device.get_outlet_state B
          { d with inlet_state := some (c1.states.getLastD c.initial_state) }
          (c1.states.getLastD c.initial_state) none).2 = .error e ∧
      ∀ j, k < j → c1.devices.get? j = c.devices.get? j := by
  cases haux : ThermodynamicCycle.solveAux B c.devices c.initial_state with
  | mk ds pr =>
    cases pr with
    | mk ss e2 =>
      rw [solve_eq B c ds ss e2 haux] at h
      simp only [Prod.mk.injEq] at h
      obtain ⟨hc1, he⟩ := h
      subst he
      subst hc1
      obtain ⟨d, hget, herr, hrest⟩ :=
        solveAux_error_spec B c.devices c.initial_state ds ss e haux
      refine ⟨ss.length, d, hget, by simp, ?_, hrest⟩
      rw [show ({ c with devices := ds, states := c.initial_state :: ss } : Cycle).states
        = c.initial_state :: ss from rfl, List.getLastD_cons]
      exact herr

/-- A cycle failing at position 1 (after one successful device). -/
def cycCA : Cycle :=
  { initial_state := airInlet, mass_flux := 450,
    devices := [compressorDev, deaeratorDev], states := [] }

/-- A cycle failing at position 0 with a differently named device. -/
def cycCB : Cycle :=
  { initial_state := airInlet, mass_flux := 450,
    devices := [deaeratorDev2], states := [] }

/-- `cycCA` after its failing solve. -/
def cycCAfailed : Cycle := (ThermodynamicCycle.solve testBackend cycCA).1

/-- C3 (counterexample): two cycles whose failing devices differ in both
name and position produce the very same escaped error — so the error
identifies neither — and after the failed solve the cycle retains a
2-entry partial trajectory on which `get_efficiency` is NOT rejected by
its (only) "must be solved" guard: the partial state is treated as
solved.  (In Python the final division is numpy float division, which
returns `-inf` rather than raising, so `get_efficiency` indeed returns
a value there.) -/
theorem C3_counterexample :
    (ThermodynamicCycle.solve testBackend cycCA).2 =
      some (.attributeError "Deaerator object has no attribute get_outlet_state") ∧
    (ThermodynamicCycle.solve testBackend cycCB).2 =
      some (.attributeError "Deaerator object has no attribute get_outlet_state") ∧
    cycCAfailed.states.length = 2 ∧
    BraytonCycle.get_efficiency cycCAfailed ≠
      .error (.valueError "The cycle must be solved before getting its efficiency.") :=
  ⟨rfl, rfl, rfl, by decide⟩

/-- Witness for the amended C3 at the concrete failing cycle. -/
theorem C3_witness : cycCAfailed.states.length ≠ 0 := by
  obtain ⟨k, d, _, hlen, _, _⟩ :=
    C3_amended_failure_anatomy testBackend cycCA cycCAfailed
      (.attributeError "Deaerator object has no attribute get_outlet_state") rfl
  omega

/-- C4 (amended): `add_device` appends to the ordered device list and
changes nothing else — in particular it does NOT invalidate a previously
solved trajectory.  When the category of the appended device is outside the
three aggregated ones, a later `get_efficiency` even returns the very
result computed from the stale trajectory and stale device records,
instead of failing with the not-ready condition. -/
theorem C4_amended_add_device (c : Cycle) (d : Device)
    (h1 : d.spec.deviceType ≠ "turbine")
    (h2 : d.spec.deviceType ≠ "compressor")
    (h3 : d.spec.deviceType ≠ "combustion_chamber") :
    (ThermodynamicCycle.add_device c d).devices = c.devices ++ [d] ∧
    (ThermodynamicCycle.add_device c d).states = c.states ∧
    BraytonCycle.get_efficiency (ThermodynamicCycle.add_device c d) =
      BraytonCycle.get_efficiency c := by
  refine ⟨rfl, rfl, ?_⟩
  have hsum : ∀ ty : String, d.spec.deviceType ≠ ty →
      BraytonCycle.sumEnergyBalance (c.devices ++ [d]) ty =
        BraytonCycle.sumEnergyBalance c.devices ty := by
    intro ty hty
    unfold BraytonCycle.sumEnergyBalance
    rw [List.filter_append]
    have hd : (([d] : List Device).filter
        (fun dd => dd.spec.deviceType == ty)) = [] := by
      simp [List.filter_singleton, hty]
    rw [hd, List.append_nil]
  unfold BraytonCycle.get_efficiency BraytonCycle.turbine_work
    BraytonCycle.compressor_work BraytonCycle.heat_in
  simp only [ThermodynamicCycle.add_device]
  rw [hsum "turbine" h1, hsum "compressor" h2, hsum "combustion_chamber" h3]

/-- The solved two-device cycle with a condenser appended afterwards. -/
def cyc4added : Cycle := ThermodynamicCycle.add_device cyc1solved condenserDev

/-- C4 (counterexample): appending a condenser to the solved `cyc1`
leaves the 3-entry trajectory in place, and `get_efficiency` afterwards
is not rejected by the not-ready guard — it proceeds on the stale
trajectory (in Python returning a numpy float, not raising). -/
theorem C4_counterexample :
    (ThermodynamicCycle.solve testBackend cyc1).2 = none ∧
    cyc4added.devices = cyc1solved.devices ++ [condenserDev] ∧
    cyc4added.states = cyc1solved.states ∧
    cyc4added.states.length = 3 ∧
    BraytonCycle.get_efficiency cyc4added ≠
      .error (.valueError "The cycle must be solved before getting its efficiency.") :=
  ⟨rfl, rfl, rfl, rfl, by decide⟩

/-- Witness for the amended C4 at the concrete solved cycle. -/
theorem C4_witness :
    (ThermodynamicCycle.add_device cyc1solved condenserDev).states =
      cyc1solved.states ∧
    BraytonCycle.get_efficiency (ThermodynamicCycle.add_device cyc1solved condenserDev) =
      BraytonCycle.get_efficiency cyc1solved := by
  obtain ⟨_, h2, h3⟩ := C4_amended_add_device cyc1solved condenserDev
    (by decide) (by decide) (by decide)
  exact ⟨h2, h3⟩

/-- C6 (code bug): `Condenser.get_outlet_state` calls
`dew_point_at_pressure`, which in pyfluids is the saturated-VAPOR point
(quality 100 %), while the comment inside the code itself ("Saturation fluid
(x = 0)") and the spec ask for the saturated-liquid point (quality 0,
i.e. `bubble_point_at_pressure`).  On the toy backend, which returns the
quality-100 state pyfluids would, the condenser outlet has quality 100,
not 0. -/
theorem C6_condenser_returns_dew_point :
    (Device.get_outlet_state testBackend condenserDev airInlet none).2 =
      .ok ⟨"Water", 10000, 45, 2500000, 8, some 100⟩ ∧
    (⟨"Water", 10000, 45, 2500000, 8, some 100⟩ : FluidState).quality ≠ some 0 :=
  ⟨rfl, by decide⟩

end ThermoSys
